import Mathlib

/-!
Verification of the obsidian-pandoc export pipeline.

This file gives a shallow embedding of the repository's core algorithms:

* `pandoc-options.ts`: the option schema registry (`PANDOC_OPTIONS`), the
  validator (`validatePandocOption`), `isFlagOnlyOption` and
  `FILE_PATH_ARGUMENTS`;
* `renderer.ts`: the frontmatter compiler (`convertYamlToPandocArgs`) and its
  smart path resolver (`rendererResolveFilePath`);
* `main.ts`: the md-export path resolver (`resolveFilePath`);
* `pandoc.ts`: the extra-argument tokenizer (`parseArgumentString`) and the
  construction of the final argument vector (`buildPandocArgs`).

Modelling conventions:

* YAML frontmatter values are an inductive type `YamlValue` of scalars
  (boolean, string, integer number, null) and flat arrays of scalars — the
  shapes the compiler distinguishes with `===`, `typeof` and `Array.isArray`.
* JavaScript coercions that the source relies on (`typeof`, `String(v)`,
  template-literal interpolation, `parseFloat`/`isNaN`) are modelled by
  explicit total functions (`jsTypeof`, `jsStringValue`, `parseFloatIsNaN`,
  `jsNumberIsNaN`).  The `Number()` model covers decimal, exponent and
  Infinity forms (not the hexadecimal/binary literal forms, which no option
  value exercises here).
* The file system is a parameter `fs : String → Bool` (the set of paths for
  which `fileExists` resolves to true); `path.resolve` of an absolute base
  and a relative reference is modelled as `/`-joining (no `..` segments are
  exercised), and `path.isAbsolute` as "starts with a slash" (POSIX).
* JavaScript string primitives used on keys (`startsWith`, `substring`,
  `includes`, `split('=')`) are modelled by functions on `List Char`
  (`strStartsWith`, `strDrop`, …) so that proofs can proceed by list
  induction.
* `new Notice(...)` diagnostics surfaced to the user are collected in a
  `diagnostics` list field.
-/

/-! ## String helpers modelling the JavaScript string primitives -/

/-- Models JS `s.startsWith(pre)`. -/
def strStartsWith (s pre : String) : Bool :=
  pre.data.isPrefixOf s.data

/-- Models JS `s.substring(n)` (all values involved are ASCII, so UTF-16
code-unit indexing and character indexing agree). -/
def strDrop (s : String) (n : Nat) : String :=
  ⟨s.data.drop n⟩

/-- Models JS `s.endsWith(suf)`. -/
def strEndsWith (s suf : String) : Bool :=
  suf.data.reverse.isPrefixOf s.data.reverse

/-- Substring occurrence on character lists, models JS `hay.includes(needle)`. -/
def listContainsSub (needle : List Char) : List Char → Bool
  | [] => needle.isEmpty
  | c :: rest => needle.isPrefixOf (c :: rest) || listContainsSub needle rest

/-- Models JS `s.includes(pat)`. -/
def strContainsSub (s pat : String) : Bool :=
  listContainsSub pat.data s.data

/-! ## The frontmatter value model -/

/-- A scalar YAML frontmatter value. -/
inductive Scalar where
  | bool (b : Bool)
  | str (s : String)
  | num (n : Int)
  | null
deriving DecidableEq, Repr

/-- A YAML frontmatter value: a scalar or a flat array of scalars (the two
shapes the compiler's `===`/`Array.isArray` probing distinguishes). -/
inductive YamlValue where
  | scalar (s : Scalar)
  | arr (items : List Scalar)
deriving DecidableEq, Repr

/-- Models the JS `typeof` operator on a frontmatter value
(`typeof null` and `typeof []` are both `"object"`). -/
def jsTypeof : YamlValue → String
  | .scalar (.bool _) => "boolean"
  | .scalar (.str _) => "string"
  | .scalar (.num _) => "number"
  | .scalar .null => "object"
  | .arr _ => "object"

/-- Models JS `String(s)` for a scalar. -/
def jsStringScalar : Scalar → String
  | .bool true => "true"
  | .bool false => "false"
  | .str s => s
  | .num n => toString n
  | .null => "null"

/-- Models JS array-element stringification inside `Array.prototype.toString`
(`null` elements become the empty string there). -/
def jsArrayElemString : Scalar → String
  | .null => ""
  | s => jsStringScalar s

/-- Models JS `String(v)` / template-literal interpolation of a value
(arrays join their elements with commas). -/
def jsStringValue : YamlValue → String
  | .scalar s => jsStringScalar s
  | .arr items => String.intercalate "," (items.map jsArrayElemString)

/-! ## JS numeric coercion (`parseFloat`, `Number`, `isNaN`) -/

/-- The JS whitespace characters relevant here (ASCII subset of `\s`). -/
def isJsWhitespace (c : Char) : Bool :=
  c = ' ' || c = '\t' || c = '\n' || c = '\r' || c = '\x0b' || c = '\x0c'

/-- Models `isNaN(parseFloat(s))`: `parseFloat` skips leading whitespace and
an optional sign, then needs a digit, a dot followed by a digit, or
`Infinity` at the front (otherwise it yields `NaN`). -/
def parseFloatIsNaN (s : String) : Bool :=
  let cs := s.data.dropWhile isJsWhitespace
  let body := match cs with
    | '+' :: r => r
    | '-' :: r => r
    | r => r
  match body with
  | [] => true
  | '.' :: r =>
    match r with
    | c :: _ => !c.isDigit
    | [] => true
  | c :: _ => !(c.isDigit || "Infinity".data.isPrefixOf body)

/-- Optional sign followed by a nonempty digit run (the exponent tail of a JS
number literal). -/
def signedDigits (cs : List Char) : Bool :=
  let ds := match cs with
    | '+' :: r => r
    | '-' :: r => r
    | r => r
  !ds.isEmpty && ds.all Char.isDigit

/-- An optional trailing exponent part of a JS number literal. -/
def jsExpPart : List Char → Bool
  | [] => true
  | 'e' :: rest => signedDigits rest
  | 'E' :: rest => signedDigits rest
  | _ => false

/-- A JS decimal number body (after the optional sign): digits, optional
fraction, optional exponent, or `Infinity`. -/
def jsNumericBody (cs : List Char) : Bool :=
  if cs = "Infinity".data then true
  else
    let ip := cs.takeWhile Char.isDigit
    let r1 := cs.dropWhile Char.isDigit
    match r1 with
    | '.' :: r2 =>
      let fp := r2.takeWhile Char.isDigit
      let r3 := r2.dropWhile Char.isDigit
      (!ip.isEmpty || !fp.isEmpty) && jsExpPart r3
    | r => !ip.isEmpty && jsExpPart r

/-- Models `isNaN(Number(s))`: `Number` trims whitespace, maps the empty
string to 0, and otherwise requires the whole string to be a signed decimal
(or Infinity) literal. -/
def jsNumberIsNaN (s : String) : Bool :=
  let t := ((s.data.dropWhile isJsWhitespace).reverse.dropWhile isJsWhitespace).reverse
  if t.isEmpty then false
  else
    let body := match t with
      | '+' :: r => r
      | '-' :: r => r
      | r => r
    !jsNumericBody body

/-- Models the value-side of the validator's number check,
`isNaN(typeof value === 'string' ? parseFloat(value) : value)`:
strings go through `parseFloat`; numbers, booleans and `null` are never
`NaN` after coercion; arrays coerce through their comma-joined string. -/
def jsIsNaNAfterCoerce : YamlValue → Bool
  | .scalar (.str s) => parseFloatIsNaN s
  | .scalar _ => false
  | .arr items => jsNumberIsNaN (jsStringValue (.arr items))

/-! ## The option schema registry (`pandoc-options.ts`) -/

/-- The option value kinds of `PandocOptionSchema.type`. -/
inductive OptionType where
  | boolean
  | string
  | number
  | choice
  | file
deriving DecidableEq, Repr

/-- `PandocOptionSchema` from `pandoc-options.ts`; absent optional fields are
the defaults (`flagOnly`/`allowMultiple` absent behave as `false` under the
source's `=== true` / truthiness tests, `choices` absent is `none`). -/
structure PandocOptionSchema where
  type : OptionType
  description : String
  flagOnly : Bool := false
  choices : Option (List String) := none
  allowMultiple : Bool := false
deriving DecidableEq, Repr

/-- Entries 1-28 of the `PANDOC_OPTIONS` record (split only to keep list-literal elaboration fast). -/
def pandocOptionsPart1 : List (String × PandocOptionSchema) := [
  ("from", ⟨.choice, "Specify input format", false, some ["markdown", "commonmark", "docx", "csv", "html", "json", "latex", "odt"], false⟩),
  ("read", ⟨.choice, "Specify input format (alias for from)", false, some ["markdown", "commonmark", "docx", "csv", "html", "json", "latex", "odt"], false⟩),
  ("to", ⟨.choice, "Specify output format", false, some ["asciidoc", "beamer", "commonmark_x", "docx", "epub", "html", "pdf", "json", "latex", "odt", "pptx", "revealjs", "rtf", "docuwiki", "mediawiki"], false⟩),
  ("write", ⟨.choice, "Specify output format (alias for to)", false, some ["asciidoc", "beamer", "commonmark_x", "docx", "epub", "html", "pdf", "json", "latex", "odt", "pptx", "revealjs", "rtf", "docuwiki", "mediawiki"], false⟩),
  ("output", ⟨.file, "Write output to FILE", false, none, false⟩),
  ("data-dir", ⟨.file, "Specify the user data directory", false, none, false⟩),
  ("metadata", ⟨.string, "Set the metadata field KEY to the value VAL", false, none, true⟩),
  ("metadata-file", ⟨.file, "Read metadata from YAML/JSON file", false, none, true⟩),
  ("defaults", ⟨.file, "Read default options from FILE", false, none, false⟩),
  ("file-scope", ⟨.boolean, "Parse each file individually before combining", false, none, false⟩),
  ("sandbox", ⟨.boolean, "Run pandoc in a sandbox", false, none, false⟩),
  ("standalone", ⟨.boolean, "Produce output with an appropriate header and footer", false, none, false⟩),
  ("template", ⟨.file, "Use FILE as a custom template", false, none, false⟩),
  ("variable", ⟨.string, "Set template variable KEY to VAL", false, none, true⟩),
  ("variable-json", ⟨.string, "Set template variable KEY to JSON value", false, none, true⟩),
  ("wrap", ⟨.choice, "Determine how text is wrapped", false, some ["auto", "none", "preserve"], false⟩),
  ("ascii", ⟨.boolean, "Use only ASCII characters in output", false, none, false⟩),
  ("toc", ⟨.boolean, "Include table of contents", true, none, false⟩),
  ("table-of-contents", ⟨.boolean, "Include table of contents (alias for toc)", true, none, false⟩),
  ("toc-depth", ⟨.number, "Specify the number of section levels to include in TOC", false, none, false⟩),
  ("lof", ⟨.boolean, "Include list of figures", true, none, false⟩),
  ("list-of-figures", ⟨.boolean, "Include list of figures (alias for lof)", true, none, false⟩),
  ("lot", ⟨.boolean, "Include list of tables", true, none, false⟩),
  ("list-of-tables", ⟨.boolean, "Include list of tables (alias for lot)", true, none, false⟩),
  ("number-sections", ⟨.boolean, "Number section headings", true, none, false⟩),
  ("number-offset", ⟨.string, "Offset for section numbering", false, none, false⟩),
  ("top-level-division", ⟨.choice, "Treat top-level headers as", false, some ["section", "chapter", "part"], false⟩),
  ("extract-media", ⟨.file, "Extract images and other media to directory", false, none, false⟩)]

/-- Entries 29-56 of the `PANDOC_OPTIONS` record (split only to keep list-literal elaboration fast). -/
def pandocOptionsPart2 : List (String × PandocOptionSchema) := [
  ("resource-path", ⟨.string, "List of paths to search for images and other resources", false, none, true⟩),
  ("include-in-header", ⟨.file, "Include contents of FILE in header", false, none, true⟩),
  ("include-before-body", ⟨.file, "Include contents of FILE before body", false, none, true⟩),
  ("include-after-body", ⟨.file, "Include contents of FILE after body", false, none, true⟩),
  ("no-highlight", ⟨.boolean, "Disable syntax highlighting", true, none, false⟩),
  ("highlight-style", ⟨.string, "Specify the coloring style for highlighted source code", false, none, false⟩),
  ("syntax-definition", ⟨.file, "Load a KDE XML syntax definition file", false, none, true⟩),
  ("dpi", ⟨.number, "Specify the default dpi for images", false, none, false⟩),
  ("eol", ⟨.choice, "Manually specify line endings", false, some ["crlf", "lf", "native"], false⟩),
  ("columns", ⟨.number, "Length of lines in characters", false, none, false⟩),
  ("preserve-tabs", ⟨.boolean, "Preserve tabs instead of converting to spaces", false, none, false⟩),
  ("tab-stop", ⟨.number, "Specify the number of spaces per tab", false, none, false⟩),
  ("pdf-engine", ⟨.choice, "Use the specified engine when producing PDF output", false, some ["pdflatex", "lualatex", "xelatex", "wkhtmltopdf", "weasyprint", "pagedjs-cli", "prince", "context", "pdfroff"], false⟩),
  ("pdf-engine-opt", ⟨.string, "Give option to the PDF-engine", false, none, true⟩),
  ("reference-doc", ⟨.file, "Use FILE as a style reference", false, none, false⟩),
  ("self-contained", ⟨.boolean, "Produce a standalone HTML file with no external dependencies", false, none, false⟩),
  ("embed-resources", ⟨.boolean, "Embed resources in the output file", false, none, false⟩),
  ("link-images", ⟨.boolean, "Link to images instead of embedding them", false, none, false⟩),
  ("request-header", ⟨.string, "Set request header when fetching remote files", false, none, true⟩),
  ("no-check-certificate", ⟨.boolean, "Disable SSL certificate verification", false, none, false⟩),
  ("citeproc", ⟨.boolean, "Process citations with citeproc", true, none, false⟩),
  ("bibliography", ⟨.file, "Set the bibliography field in metadata", false, none, true⟩),
  ("csl", ⟨.file, "Set the csl field in metadata", false, none, false⟩),
  ("citation-abbreviations", ⟨.file, "Set the citation-abbreviations field in metadata", false, none, false⟩),
  ("natbib", ⟨.boolean, "Use natbib for citations in LaTeX output", true, none, false⟩),
  ("biblatex", ⟨.boolean, "Use BibLaTeX for citations in LaTeX output", true, none, false⟩),
  ("mathml", ⟨.boolean, "Render TeX math using MathML", true, none, false⟩),
  ("webtex", ⟨.string, "Render TeX math using the WebTeX service", false, none, false⟩)]

/-- Entries 57-84 of the `PANDOC_OPTIONS` record (split only to keep list-literal elaboration fast). -/
def pandocOptionsPart3 : List (String × PandocOptionSchema) := [
  ("mathjax", ⟨.string, "Render TeX math using MathJax", false, none, false⟩),
  ("katex", ⟨.string, "Render TeX math using KaTeX", false, none, false⟩),
  ("gladtex", ⟨.boolean, "Render TeX math using GladTeX", true, none, false⟩),
  ("abbreviations", ⟨.file, "Specifies a custom abbreviations file", false, none, false⟩),
  ("indented-code-classes", ⟨.string, "Classes to use for indented code blocks", false, none, false⟩),
  ("default-image-extension", ⟨.string, "Specify a default extension to use when image paths/URLs have no extension", false, none, false⟩),
  ("filter", ⟨.string, "Specify an executable to be used as a filter", false, none, true⟩),
  ("lua-filter", ⟨.file, "Transform the document using pandoc-lua-filter", false, none, true⟩),
  ("shift-heading-level-by", ⟨.number, "Shift heading levels by a positive or negative integer", false, none, false⟩),
  ("base-header-level", ⟨.number, "Specify the base level for headers", false, none, false⟩),
  ("track-changes", ⟨.choice, "Specifies what to do with tracked changes", false, some ["accept", "reject", "all"], false⟩),
  ("strip-comments", ⟨.boolean, "Strip out HTML comments", false, none, false⟩),
  ("reference-links", ⟨.boolean, "Use reference-style links", false, none, false⟩),
  ("reference-location", ⟨.choice, "Specify where footnotes should be placed", false, some ["block", "section", "document"], false⟩),
  ("css", ⟨.file, "Link to a CSS style sheet", false, none, true⟩),
  ("epub-subdirectory", ⟨.string, "Specify subdirectory that will hold the EPUB", false, none, false⟩),
  ("epub-cover-image", ⟨.file, "Use the specified image as the EPUB cover", false, none, false⟩),
  ("epub-title-page", ⟨.boolean, "Add title page to EPUB", false, none, false⟩),
  ("epub-metadata", ⟨.file, "Look in the specified XML file for metadata for the EPUB", false, none, false⟩),
  ("epub-embed-font", ⟨.file, "Embed the specified font in the EPUB", false, none, true⟩),
  ("split-level", ⟨.number, "Specify the heading level at which to split the EPUB", false, none, false⟩),
  ("chunk-template", ⟨.file, "Path template for new chunks", false, none, false⟩),
  ("epub-chapter-level", ⟨.number, "Specify the heading level at which to split the EPUB into chapters", false, none, false⟩),
  ("ipynb-output", ⟨.choice, "Determine how jupyter notebook outputs are treated", false, some ["all", "none", "best"], false⟩),
  ("slide-level", ⟨.number, "Specifies that headers with the specified level create slides", false, none, false⟩),
  ("section-divs", ⟨.boolean, "Wrap sections in <section> tags", false, none, false⟩),
  ("html-q-tags", ⟨.boolean, "Use <q> tags for quotes in HTML", false, none, false⟩),
  ("email-obfuscation", ⟨.choice, "Specify a method for obfuscating mailto links", false, some ["none", "javascript", "references"], false⟩)]

/-- Entries 85-110 of the `PANDOC_OPTIONS` record (split only to keep list-literal elaboration fast). -/
def pandocOptionsPart4 : List (String × PandocOptionSchema) := [
  ("id-prefix", ⟨.string, "Specify a prefix to be added to all identifiers", false, none, false⟩),
  ("title-prefix", ⟨.string, "Specify a prefix to be added to all CSS selectors", false, none, false⟩),
  ("listings", ⟨.boolean, "Use the listings package for LaTeX code blocks", false, none, false⟩),
  ("incremental", ⟨.boolean, "Make list items in slide shows display incrementally", false, none, false⟩),
  ("figure-caption-position", ⟨.choice, "Determines where figure captions are placed", false, some ["above", "below"], false⟩),
  ("table-caption-position", ⟨.choice, "Determines where table captions are placed", false, some ["above", "below"], false⟩),
  ("markdown-headings", ⟨.choice, "Specifies whether to use ATX or Setext-style headings", false, some ["setext", "atx"], false⟩),
  ("list-tables", ⟨.boolean, "Render tables as list tables", false, none, false⟩),
  ("trace", ⟨.boolean, "Print debug information", false, none, false⟩),
  ("dump-args", ⟨.boolean, "Print information about command-line arguments", false, none, false⟩),
  ("ignore-args", ⟨.boolean, "Ignore command-line arguments", false, none, false⟩),
  ("verbose", ⟨.boolean, "Give verbose debugging output", true, none, false⟩),
  ("quiet", ⟨.boolean, "Suppress warning messages", true, none, false⟩),
  ("fail-if-warnings", ⟨.boolean, "Exit with error status if there are any warnings", false, none, false⟩),
  ("log", ⟨.file, "Write log messages in machine-readable JSON format to FILE", false, none, false⟩),
  ("version", ⟨.boolean, "Print version", true, none, false⟩),
  ("help", ⟨.boolean, "Show help", true, none, false⟩),
  ("list-input-formats", ⟨.boolean, "List supported input formats", true, none, false⟩),
  ("list-output-formats", ⟨.boolean, "List supported output formats", true, none, false⟩),
  ("list-extensions", ⟨.string, "List supported extensions for FORMAT", false, none, false⟩),
  ("list-highlight-languages", ⟨.boolean, "List supported languages for syntax highlighting", true, none, false⟩),
  ("list-highlight-styles", ⟨.boolean, "List supported styles for syntax highlighting", true, none, false⟩),
  ("print-default-template", ⟨.string, "Print the system default template for an output FORMAT", false, none, false⟩),
  ("print-default-data-file", ⟨.file, "Print a system default data file", false, none, false⟩),
  ("print-highlight-style", ⟨.string, "Print a JSON version of a highlighting style", false, none, false⟩),
  ("bash-completion", ⟨.boolean, "Generate a bash completion script", true, none, false⟩)]

/-- The `PANDOC_OPTIONS` record, as an association list in source order. -/
def PANDOC_OPTIONS : List (String × PandocOptionSchema) :=
  pandocOptionsPart1 ++ pandocOptionsPart2 ++ pandocOptionsPart3 ++ pandocOptionsPart4

/-- Record lookup `PANDOC_OPTIONS[optionName]`. -/
def optLookup (optionName : String) : Option PandocOptionSchema :=
  (PANDOC_OPTIONS.find? (fun p => p.1 == optionName)).map (fun p => p.2)

/-- `FILE_PATH_ARGUMENTS` from `pandoc-options.ts` (the set the renderer's
compiler imports). -/
def FILE_PATH_ARGUMENTS : List String :=
  ["template", "css", "bibliography", "csl", "reference-doc", "reference-odt",
   "reference-docx", "epub-cover-image", "epub-stylesheet", "include-in-header",
   "include-before-body", "include-after-body", "lua-filter", "filter",
   "metadata-file", "abbreviations", "syntax-definition", "defaults",
   "data-dir", "extract-media", "output", "epub-metadata", "epub-embed-font",
   "chunk-template", "citation-abbreviations", "log", "print-default-data-file"]

/-- The validator's result record. -/
structure ValidationResult where
  isValid : Bool
  error : Option String
deriving DecidableEq, Repr

/-- `validatePandocOption` from `pandoc-options.ts`.  The source is a chain of
early-returning `if`s keyed on `schema.type`; since the boolean branch always
returns, the chain is rendered as a match on the (exhaustive) type enum.  A
`choice` schema without a declared `choices` list falls through every branch
to the final permissive `return { isValid: true }`. -/
def validatePandocOption (optionName : String) (value : YamlValue) : ValidationResult :=
  match optLookup optionName with
  | none => ⟨true, none⟩
  | some schema =>
    match schema.type with
    | .boolean =>
      if schema.flagOnly && !(value == .scalar (.bool true)) then
        ⟨false, some ("Option '" ++ optionName ++ "' is flag-only and should be set to true, not '"
          ++ jsStringValue value ++ "'")⟩
      else if !(jsTypeof value == "boolean") then
        ⟨false, some ("Option '" ++ optionName ++ "' expects a boolean value, got '"
          ++ jsTypeof value ++ "'")⟩
      else ⟨true, none⟩
    | .choice =>
      match schema.choices with
      | some cs =>
        match value with
        | .scalar (.str v) =>
          if cs.contains v then ⟨true, none⟩
          else ⟨false, some ("Option '" ++ optionName ++ "' must be one of: "
            ++ String.intercalate ", " cs ++ ". Got '" ++ jsStringValue value ++ "'")⟩
        | _ => ⟨false, some ("Option '" ++ optionName ++ "' must be one of: "
            ++ String.intercalate ", " cs ++ ". Got '" ++ jsStringValue value ++ "'")⟩
      | none => ⟨true, none⟩
    | .number =>
      if jsIsNaNAfterCoerce value then
        ⟨false, some ("Option '" ++ optionName ++ "' expects a number, got '"
          ++ jsStringValue value ++ "'")⟩
      else ⟨true, none⟩
    | .string =>
      if !(jsTypeof value == "string") then
        ⟨false, some ("Option '" ++ optionName ++ "' expects a string, got '"
          ++ jsTypeof value ++ "'")⟩
      else ⟨true, none⟩
    | .file =>
      if !(jsTypeof value == "string") then
        ⟨false, some ("Option '" ++ optionName ++ "' expects a string, got '"
          ++ jsTypeof value ++ "'")⟩
      else ⟨true, none⟩

/-- `isFlagOnlyOption` from `pandoc-options.ts`:
`schema?.flagOnly === true && value === true`. -/
def isFlagOnlyOption (optionName : String) (value : YamlValue) : Bool :=
  (match optLookup optionName with
   | some schema => schema.flagOnly
   | none => false) && value == .scalar (.bool true)

/-! ## Smart path resolution (`renderer.ts` / `main.ts`) -/

/-- The search-directory inputs of the resolvers: the directory of the
document being exported, the vault root, and `settings.templateFolder`
(the empty string models an unset/falsy custom folder, matching the
source's truthiness test). -/
structure ResolverConfig where
  currentFileDir : String
  vaultBasePath : String
  templateFolder : String
deriving Repr

/-- Models `path.isAbsolute` (POSIX: starts with a slash). -/
def pathIsAbsolute (p : String) : Bool :=
  match p.data with
  | '/' :: _ => true
  | _ => false

/-- Models `path.resolve(base, p)` for an absolute `base` and relative `p`
(no `..` normalization is exercised by the resolvers). -/
def pathResolve2 (base p : String) : String :=
  base ++ "/" ++ p

/-- Models `path.resolve(base, mid, p)` for an absolute `base`. -/
def pathResolve3 (base mid p : String) : String :=
  base ++ "/" ++ mid ++ "/" ++ p

/-- The conventional directory list of the renderer's resolver. -/
def rendererCommonDirs : List String :=
  ["templates", "Templates", "_templates", "pandoc", "assets"]

/-- The conventional directory list of the md-export resolver in `main.ts`. -/
def mainCommonDirs : List String :=
  ["templates", "Templates", "_templates", "pandoc", ".pandoc", "assets"]

/-- The `for (const dir of commonDirs)` loop shared by both resolvers,
falling back to the original reference. -/
def tryCommonDirs (fs : String → Bool) (vaultBasePath filePath : String) : List String → String
  | [] => filePath
  | dir :: rest =>
    let templatePath := pathResolve3 vaultBasePath dir filePath
    if fs templatePath then templatePath
    else tryCommonDirs fs vaultBasePath filePath rest

/-- `resolveFilePath` from `renderer.ts` (the compiler's resolver), with the
file system abstracted as `fs`. -/
def rendererResolveFilePath (fs : String → Bool) (cfg : ResolverConfig) (filePath : String) : String :=
  if pathIsAbsolute filePath then filePath
  else
    let relativeToCurrent := pathResolve2 cfg.currentFileDir filePath
    if fs relativeToCurrent then relativeToCurrent
    else
      let relativeToVault := pathResolve2 cfg.vaultBasePath filePath
      if fs relativeToVault then relativeToVault
      else
        if !(cfg.templateFolder == "") then
          let customPath :=
            if pathIsAbsolute cfg.templateFolder then pathResolve2 cfg.templateFolder filePath
            else pathResolve3 cfg.vaultBasePath cfg.templateFolder filePath
          if fs customPath then customPath
          else tryCommonDirs fs cfg.vaultBasePath filePath rendererCommonDirs
        else tryCommonDirs fs cfg.vaultBasePath filePath rendererCommonDirs

/-- `resolveFilePath` from `main.ts` (the md-export path), identical to the
renderer's resolver except for the extra `.pandoc` conventional directory. -/
def resolveFilePath (fs : String → Bool) (cfg : ResolverConfig) (filePath : String) : String :=
  if pathIsAbsolute filePath then filePath
  else
    let relativeToCurrent := pathResolve2 cfg.currentFileDir filePath
    if fs relativeToCurrent then relativeToCurrent
    else
      let relativeToVault := pathResolve2 cfg.vaultBasePath filePath
      if fs relativeToVault then relativeToVault
      else
        if !(cfg.templateFolder == "") then
          let customPath :=
            if pathIsAbsolute cfg.templateFolder then pathResolve2 cfg.templateFolder filePath
            else pathResolve3 cfg.vaultBasePath cfg.templateFolder filePath
          if fs customPath then customPath
          else tryCommonDirs fs cfg.vaultBasePath filePath mainCommonDirs
        else tryCommonDirs fs cfg.vaultBasePath filePath mainCommonDirs

/-! ## The frontmatter compiler (`convertYamlToPandocArgs`, `renderer.ts`) -/

/-- The compiler's output: the passthrough metadata, the emitted CLI argument
tokens, and the `new Notice(...)` diagnostics surfaced to the user. -/
structure ConvertResult where
  cleanedMetadata : List (String × YamlValue)
  cliArgs : List String
  diagnostics : List String
deriving DecidableEq, Repr

/-- The `for (const item of value)` loop over an array-valued directive:
`null`/`undefined` elements are skipped, each element is validated
independently (invalid ones are dropped with a diagnostic), and each
surviving element emits one `--name=value` token, with path resolution for
file-path argument names.  Returns (tokens, diagnostics). -/
def convertArrayItems (fs : String → Bool) (cfg : ResolverConfig) (key argName : String) :
    List Scalar → List String × List String
  | [] => ([], [])
  | item :: rest =>
    let r := convertArrayItems fs cfg key argName rest
    if item == Scalar.null then r
    else
      let itemValidation := validatePandocOption argName (.scalar item)
      if !itemValidation.isValid then
        (r.1, ("Pandoc argument validation error for " ++ key ++ "[]: "
          ++ itemValidation.error.getD "undefined") :: r.2)
      else
        let resolvedValue :=
          if FILE_PATH_ARGUMENTS.contains argName then
            rendererResolveFilePath fs cfg (jsStringScalar item)
          else jsStringScalar item
        (("--" ++ argName ++ "=" ++ resolvedValue) :: r.1, r.2)

/-- The body of the compiler's loop for a single frontmatter field
`(key, value)`: fields without the `pandoc-` prefix pass through to
`cleanedMetadata`; prefixed fields are validated and compiled to argument
tokens exactly as in `convertYamlToPandocArgs` in `renderer.ts`. -/
def convertEntry (fs : String → Bool) (cfg : ResolverConfig) (key : String) (value : YamlValue) :
    ConvertResult :=
  if strStartsWith key "pandoc-" then
    let argName := strDrop key 7
    let validation := validatePandocOption argName value
    if !validation.isValid then
      ⟨[], [], ["Pandoc argument validation error: " ++ validation.error.getD "undefined"]⟩
    else
      match value with
      | .scalar (.bool false) => ⟨[], [], []⟩
      | .scalar .null => ⟨[], [], []⟩
      | .scalar (.bool true) =>
        if isFlagOnlyOption argName value then ⟨[], ["--" ++ argName], []⟩
        else ⟨[], ["--" ++ argName ++ "=true"], []⟩
      | .arr items =>
        let r := convertArrayItems fs cfg key argName items
        ⟨[], r.1, r.2⟩
      | .scalar s =>
        let resolvedValue :=
          if FILE_PATH_ARGUMENTS.contains argName then
            rendererResolveFilePath fs cfg (jsStringScalar s)
          else jsStringScalar s
        ⟨[], ["--" ++ argName ++ "=" ++ resolvedValue], []⟩
  else ⟨[(key, value)], [], []⟩

/-- `convertYamlToPandocArgs` from `renderer.ts`: the loop over
`Object.entries(metadata)` appends each field's contributions in order to
the shared accumulators, so the whole run is the in-order concatenation of
the per-entry results. -/
def convertYamlToPandocArgs (fs : String → Bool) (cfg : ResolverConfig) :
    List (String × YamlValue) → ConvertResult
  | [] => ⟨[], [], []⟩
  | (key, value) :: rest =>
    let head := convertEntry fs cfg key value
    let tail := convertYamlToPandocArgs fs cfg rest
    ⟨head.cleanedMetadata ++ tail.cleanedMetadata,
     head.cliArgs ++ tail.cliArgs,
     head.diagnostics ++ tail.diagnostics⟩

/-! ## The extra-argument tokenizer (`parseArgumentString`, `pandoc.ts`) -/

/-- Index of the first occurrence of `q`, models the closing-quote search of
the tokenizer's regex. -/
def charIndexOf (q : Char) : List Char → Option Nat
  | [] => none
  | c :: cs => if c = q then some 0 else (charIndexOf q cs).map (fun i => i + 1)

/-- The tokenizer of `parseArgumentString`: the regex
`(?:[^\s"']+|"[^"]*"|'[^']*')+` matched globally.  `cur` is the token being
assembled from consecutive pieces.  Whitespace ends the current token; a
quote with a matching closing quote contributes a quoted piece (quotes
included, whitespace inside preserved); an unmatched quote ends the current
token and is skipped (the regex cannot match it anywhere); any other
character is a plain piece. -/
def lexArgsAux (cs : List Char) (cur : List Char) : List (List Char) :=
  match cs with
  | [] => if cur.isEmpty then [] else [cur]
  | c :: rest =>
    if isJsWhitespace c then
      (if cur.isEmpty then [] else [cur]) ++ lexArgsAux rest []
    else if c = '"' || c = '\x27' then
      match charIndexOf c rest with
      | some i => lexArgsAux (rest.drop (i + 1)) (cur ++ c :: rest.take i ++ [c])
      | none => (if cur.isEmpty then [] else [cur]) ++ lexArgsAux rest []
    else lexArgsAux rest (cur ++ [c])
termination_by cs.length
decreasing_by all_goals (simp [List.length_drop]; try omega)

/-- Models JS `arg.split('=')`. -/
def splitOnEqL : List Char → List (List Char)
  | [] => [[]]
  | c :: rest =>
    if c = '=' then [] :: splitOnEqL rest
    else
      match splitOnEqL rest with
      | [] => [[c]]
      | p :: ps => (c :: p) :: ps

/-- Models JS `parts.join('=')`. -/
def joinEqL : List (List Char) → List Char
  | [] => []
  | [p] => p
  | p :: ps => p ++ '=' :: joinEqL ps

/-- The quote stripping of `parseArgumentString`: remove one layer of
matching surrounding quotes (`value.slice(1, -1)`). -/
def stripMatchingQuotes (v : List Char) : List Char :=
  if (v.head? = some '"' && v.getLast? = some '"')
      || (v.head? = some '\x27' && v.getLast? = some '\x27') then
    (v.drop 1).dropLast
  else v

/-- The per-token rewriting of `parseArgumentString`: a token containing `=`
is split at its first `=`, the remainder rejoined (values may contain `=`),
surrounding quotes removed, and reassembled as `flag=value`. -/
def processArgL (arg : List Char) : List Char :=
  if arg.contains '=' then
    match splitOnEqL arg with
    | [] => arg
    | flagPart :: valueParts =>
      let value := joinEqL valueParts
      flagPart ++ '=' :: stripMatchingQuotes value
  else arg

/-- `parseArgumentString` from `pandoc.ts`, on character lists. -/
def parseArgumentStringL (cs : List Char) : List (List Char) :=
  (lexArgsAux cs []).map processArgL

/-- `parseArgumentString` from `pandoc.ts`. -/
def parseArgumentString (argString : String) : List String :=
  (parseArgumentStringL argString.data).map (fun l => ⟨l⟩)

/-! ## The final argument vector (`pandoc`, `pandoc.ts`) -/

/-- The fields of `PandocInput` that the argument construction reads
(`file` is the path or the literal sentinel `STDIN`). -/
structure PandocInputModel where
  file : String
  format : Option String
  metadataFile : Option String
  documentArgs : Option (List String)
deriving Repr

/-- The fields of `PandocOutput` that the argument construction reads
(`file` is the path or the literal sentinel `STDOUT`). -/
structure PandocOutputModel where
  file : String
  format : Option String
deriving Repr

/-- `needsStandaloneFlag` from `pandoc.ts`. -/
def needsStandaloneFlag (output : PandocOutputModel) : Bool :=
  strEndsWith output.file "html"
    || output.format == some "html"
    || output.format == some "revealjs"
    || output.format == some "latex"
    || output.format == some "beamer"

/-- The `hasUserPdfEngine` probe: does any extra parameter or per-document
argument mention `--pdf-engine`? -/
def hasUserPdfEngine (extraParams : Option (List String))
    (documentArgs : Option (List String)) : Bool :=
  (match extraParams with
   | some ps => ps.any (fun p => strContainsSub p "--pdf-engine")
   | none => false)
  || (match documentArgs with
      | some ds => ds.any (fun a => strContainsSub a "--pdf-engine")
      | none => false)

/-- The default PDF engine chosen when the user specified none: LuaLaTeX if
found on the PATH, else XeLaTeX if found, else nothing. -/
def pdfEngineDefaultArgs (lualatexFound xelatexFound : Bool) : List String :=
  if lualatexFound then ["--pdf-engine=lualatex"]
  else if xelatexFound then ["--pdf-engine=xelatex"]
  else []

/-- The argument-vector construction of `pandoc()` in `pandoc.ts` (the
sequence of `args.push` calls before the child process is spawned), with the
two `lookpath` probes abstracted as booleans. -/
def buildPandocArgs (input : PandocInputModel) (output : PandocOutputModel)
    (extraParams : Option (List String)) (lualatexFound xelatexFound : Bool) : List String :=
  (match input.format with | some f => ["--from", f] | none => [])
  ++ (match output.format with | some f => ["--to", f] | none => [])
  ++ (if needsStandaloneFlag output then ["-s"] else [])
  ++ (if !(output.file == "STDOUT") then ["-o", output.file] else ["-o", "-"])
  ++ (if output.format == some "pdf" then
        (if !hasUserPdfEngine extraParams input.documentArgs then
          pdfEngineDefaultArgs lualatexFound xelatexFound
        else [])
      else [])
  ++ (if !(input.file == "STDIN") then [input.file] else [])
  ++ (match input.metadataFile with | some m => ["--metadata-file", m] | none => [])
  ++ (match extraParams with
      | some ps => ((ps.map parseArgumentString).flatten).filter (fun x => !(x.length == 0))
      | none => [])
  ++ (match input.documentArgs with | some ds => ds | none => [])

/-! ## Spec-side definitions (for the refinement-style claims) -/

/-- The ranked candidate list of the spec's Path Resolver (§4.3), written
from the spec's words, for comparison with `resolveFilePath`: document
directory, root directory, custom directory if set (absolute or
root-relative), then the conventional directories in order. -/
def specSearchCandidates (cfg : ResolverConfig) (filePath : String) : List String :=
  [pathResolve2 cfg.currentFileDir filePath, pathResolve2 cfg.vaultBasePath filePath]
  ++ (if !(cfg.templateFolder == "") then
        [if pathIsAbsolute cfg.templateFolder then pathResolve2 cfg.templateFolder filePath
         else pathResolve3 cfg.vaultBasePath cfg.templateFolder filePath]
      else [])
  ++ mainCommonDirs.map (fun d => pathResolve3 cfg.vaultBasePath d filePath)

/-- First candidate whose file exists, or the original reference — the
spec's "first existing match wins, else return the reference unchanged". -/
def specFirstExisting (fs : String → Bool) (candidates : List String) (original : String) : String :=
  match candidates.find? fs with
  | some p => p
  | none => original

/-- The well-formed token shape of the spec's invariant: `--name` or
`--name=value`. -/
def argTokenWellFormed (t : String) : Prop :=
  ∃ name value : String, t = "--" ++ name ∨ t = "--" ++ name ++ "=" ++ value

/-- The segments of `buildPandocArgs` that precede the extra-parameter and
per-document segments (used to exhibit the order decomposition). -/
def buildPandocArgsBase (input : PandocInputModel) (output : PandocOutputModel)
    (extraParams : Option (List String)) (lualatexFound xelatexFound : Bool) : List String :=
  (match input.format with | some f => ["--from", f] | none => [])
  ++ (match output.format with | some f => ["--to", f] | none => [])
  ++ (if needsStandaloneFlag output then ["-s"] else [])
  ++ (if !(output.file == "STDOUT") then ["-o", output.file] else ["-o", "-"])
  ++ (if output.format == some "pdf" then
        (if !hasUserPdfEngine extraParams input.documentArgs then
          pdfEngineDefaultArgs lualatexFound xelatexFound
        else [])
      else [])
  ++ (if !(input.file == "STDIN") then [input.file] else [])
  ++ (match input.metadataFile with | some m => ["--metadata-file", m] | none => [])

/-! ## Helper lemmas -/

theorem strData_append (s t : String) : (s ++ t).data = s.data ++ t.data := by
  cases s; cases t; rfl

theorem strExt {a b : String} (h : a.data = b.data) : a = b := by
  cases a; cases b; cases h; rfl

theorem isPrefixOf_self_append (a b : List Char) : a.isPrefixOf (a ++ b) = true := by
  induction a with
  | nil => simp [List.isPrefixOf]
  | cons c cs ih => simp [List.isPrefixOf, ih]

theorem strStartsWith_pandocPrefix (name : String) :
    strStartsWith ("pandoc-" ++ name) "pandoc-" = true := by
  rw [strStartsWith, strData_append]
  exact isPrefixOf_self_append _ _

theorem strDrop_pandocPrefix (name : String) : strDrop ("pandoc-" ++ name) 7 = name := by
  apply strExt
  rw [strDrop, strData_append]
  rfl

theorem listContainsSub_of_parts (n a b : List Char) : listContainsSub n (a ++ n ++ b) = true := by
  induction a with
  | nil =>
    cases n with
    | nil => cases b <;> simp [listContainsSub, List.isPrefixOf]
    | cons c cs =>
      simp only [List.nil_append, List.cons_append, listContainsSub]
      have h2 := isPrefixOf_self_append (c :: cs) b
      simp only [List.cons_append] at h2
      simp [h2]
  | cons c cs ih =>
    simp only [List.cons_append, listContainsSub]
    rw [List.append_assoc] at ih
    simp [ih]

theorem convertYaml_append (fs : String → Bool) (cfg : ResolverConfig)
    (xs ys : List (String × YamlValue)) :
    convertYamlToPandocArgs fs cfg (xs ++ ys) =
      ⟨(convertYamlToPandocArgs fs cfg xs).cleanedMetadata
         ++ (convertYamlToPandocArgs fs cfg ys).cleanedMetadata,
       (convertYamlToPandocArgs fs cfg xs).cliArgs
         ++ (convertYamlToPandocArgs fs cfg ys).cliArgs,
       (convertYamlToPandocArgs fs cfg xs).diagnostics
         ++ (convertYamlToPandocArgs fs cfg ys).diagnostics⟩ := by
  induction xs with
  | nil => simp [convertYamlToPandocArgs]
  | cons p rest ih =>
    obtain ⟨k, v⟩ := p
    simp [convertYamlToPandocArgs, ih, List.append_assoc]

theorem convert_singleton (fs : String → Bool) (cfg : ResolverConfig) (k : String) (v : YamlValue) :
    convertYamlToPandocArgs fs cfg [(k, v)] = convertEntry fs cfg k v := by
  simp [convertYamlToPandocArgs]

theorem tryCommonDirs_eq_find (fs : String → Bool) (vault p : String) (dirs : List String) :
    tryCommonDirs fs vault p dirs
      = specFirstExisting fs (dirs.map (fun d => pathResolve3 vault d p)) p := by
  induction dirs with
  | nil => rfl
  | cons d rest ih =>
    by_cases h : fs (pathResolve3 vault d p)
    · simp [tryCommonDirs, specFirstExisting, List.find?, h]
    · simp [tryCommonDirs, specFirstExisting, List.find?, h, ih]

/-! ## Claim theorems -/

/-- C9: for every file reference that is already an absolute path, the path
resolver returns it unchanged, for every configuration of the search
directories and every state of the file system (no existence check is
consulted). -/
theorem claim_C9_absolute_path_identity (fs : String → Bool) (cfg : ResolverConfig) (p : String)
    (h : pathIsAbsolute p = true) : resolveFilePath fs cfg p = p := by
  simp [resolveFilePath, h]

theorem claim_C9_witness :
    pathIsAbsolute "/abs/style.css" = true
      ∧ resolveFilePath (fun _ => false) ⟨"/v/notes", "/v", "/custom"⟩ "/abs/style.css"
          = "/abs/style.css" :=
  ⟨by decide, claim_C9_absolute_path_identity (fun _ => false) ⟨"/v/notes", "/v", "/custom"⟩
    "/abs/style.css" (by decide)⟩

/-- C4: for every relative file reference, the md-export path resolver tries
the candidate locations in the order: the referencing document's directory,
the root (vault) directory, the user-configured custom directory when set
(absolute or root-relative), then each of the fixed conventional directory
names in order — returning the first existing candidate, and the original
reference unchanged when none exists (`specFirstExisting` over
`specSearchCandidates` is that search, written from the spec's words). -/
theorem specFirstExisting_cons (fs : String → Bool) (c : String) (rest : List String)
    (orig : String) :
    specFirstExisting fs (c :: rest) orig = if fs c then c else specFirstExisting fs rest orig := by
  by_cases hc : fs c
  · simp [specFirstExisting, List.find?, hc]
  · simp [specFirstExisting, List.find?, hc]

theorem claim_C4_search_order (fs : String → Bool) (cfg : ResolverConfig) (p : String)
    (h : pathIsAbsolute p = false) :
    resolveFilePath fs cfg p = specFirstExisting fs (specSearchCandidates cfg p) p := by
  have hfind := tryCommonDirs_eq_find fs cfg.vaultBasePath p mainCommonDirs
  simp only [resolveFilePath, h, Bool.false_eq_true, if_false]
  simp only [specSearchCandidates, List.cons_append, List.nil_append, List.append_assoc]
  rw [specFirstExisting_cons, specFirstExisting_cons]
  by_cases h1 : fs (pathResolve2 cfg.currentFileDir p)
  · simp [h1]
  · by_cases h2 : fs (pathResolve2 cfg.vaultBasePath p)
    · simp [h1, h2]
    · simp only [h1, h2, Bool.false_eq_true, if_false]
      by_cases ht : cfg.templateFolder == ""
      · simp only [ht, Bool.not_true, Bool.false_eq_true, if_false, List.nil_append]
        exact hfind
      · simp only [ht, Bool.not_false, if_true, List.singleton_append]
        rw [specFirstExisting_cons]
        by_cases h3 : fs (if pathIsAbsolute cfg.templateFolder then
            pathResolve2 cfg.templateFolder p
          else pathResolve3 cfg.vaultBasePath cfg.templateFolder p)
        · simp [h3]
        · simp only [h3, Bool.false_eq_true, if_false]
          exact hfind

theorem claim_C4_witness :
    pathIsAbsolute "refs.bib" = false
      ∧ resolveFilePath (fun s => s == "/v/templates/refs.bib") ⟨"/v/notes", "/v", ""⟩ "refs.bib"
          = specFirstExisting (fun s => s == "/v/templates/refs.bib")
              (specSearchCandidates ⟨"/v/notes", "/v", ""⟩ "refs.bib") "refs.bib" :=
  ⟨by decide, claim_C4_search_order (fun s => s == "/v/templates/refs.bib")
    ⟨"/v/notes", "/v", ""⟩ "refs.bib" (by decide)⟩

/-- C10: for every option registered as a flag-only boolean, the validator
accepts exactly the literal boolean `true`: every other value (boolean
`false`, the string "true", numbers, null, arrays) is reported invalid. -/
theorem claim_C10_flagOnly_accepts_only_true (name : String) (schema : PandocOptionSchema)
    (hl : optLookup name = some schema) (hb : schema.type = .boolean)
    (hf : schema.flagOnly = true) (v : YamlValue) :
    (validatePandocOption name v).isValid = true ↔ v = .scalar (.bool true) := by
  obtain ⟨ty, desc, fo, ch, am⟩ := schema
  simp only at hb hf
  subst hb hf
  by_cases hv : v = .scalar (.bool true)
  · subst hv
    simp [validatePandocOption, hl, jsTypeof]
  · simp [validatePandocOption, hl, hv]

theorem claim_C10_witness :
    ((validatePandocOption "toc" (.scalar (.bool true))).isValid = true
        ↔ .scalar (.bool true) = YamlValue.scalar (.bool true))
      ∧ ((validatePandocOption "toc" (.scalar (.str "true"))).isValid = true
        ↔ .scalar (.str "true") = YamlValue.scalar (.bool true))
      ∧ ((validatePandocOption "toc" (.scalar (.bool false))).isValid = true
        ↔ .scalar (.bool false) = YamlValue.scalar (.bool true))
      ∧ ((validatePandocOption "toc" (.scalar (.num 1))).isValid = true
        ↔ .scalar (.num 1) = YamlValue.scalar (.bool true)) :=
  ⟨claim_C10_flagOnly_accepts_only_true "toc"
      ⟨.boolean, "Include table of contents", true, none, false⟩ (by decide) rfl rfl _,
   claim_C10_flagOnly_accepts_only_true "toc"
      ⟨.boolean, "Include table of contents", true, none, false⟩ (by decide) rfl rfl _,
   claim_C10_flagOnly_accepts_only_true "toc"
      ⟨.boolean, "Include table of contents", true, none, false⟩ (by decide) rfl rfl _,
   claim_C10_flagOnly_accepts_only_true "toc"
      ⟨.boolean, "Include table of contents", true, none, false⟩ (by decide) rfl rfl _⟩

theorem ne_of_data_length {a b : String} (h : a.data.length ≠ b.data.length) : a ≠ b :=
  fun he => h (by rw [he])

/-- C1: for every boolean directive, the frontmatter compiler maps the value
by option kind: a flag-only option with value `true` compiles to exactly the
one token `--name` (never `--name=true`); a non-flag-only boolean option
with value `true` compiles to `--name=true`; value `false` emits no token
either way. -/
theorem claim_C1_boolean_directive_mapping (fs : String → Bool) (cfg : ResolverConfig)
    (name : String) (schema : PandocOptionSchema)
    (hl : optLookup name = some schema) (hb : schema.type = .boolean) :
    (schema.flagOnly = true →
        (convertYamlToPandocArgs fs cfg [("pandoc-" ++ name, .scalar (.bool true))]).cliArgs
          = ["--" ++ name]
        ∧ ("--" ++ name ++ "=true")
            ∉ (convertYamlToPandocArgs fs cfg [("pandoc-" ++ name, .scalar (.bool true))]).cliArgs)
    ∧ (schema.flagOnly = false →
        (convertYamlToPandocArgs fs cfg [("pandoc-" ++ name, .scalar (.bool true))]).cliArgs
          = ["--" ++ name ++ "=true"])
    ∧ (convertYamlToPandocArgs fs cfg [("pandoc-" ++ name, .scalar (.bool false))]).cliArgs = [] := by
  obtain ⟨ty, desc, fo, ch, am⟩ := schema
  simp only at hb
  subst hb
  have hstart := strStartsWith_pandocPrefix name
  have hdrop := strDrop_pandocPrefix name
  have hvTrue : validatePandocOption name (.scalar (.bool true)) = ⟨true, none⟩ := by
    simp [validatePandocOption, hl, jsTypeof]
  have hflag : isFlagOnlyOption name (.scalar (.bool true)) = fo := by
    simp [isFlagOnlyOption, hl]
  refine ⟨?_, ?_, ?_⟩
  · intro hf
    subst hf
    constructor
    · simp [convert_singleton, convertEntry, hstart, hdrop, hvTrue, hflag]
    · simp only [convert_singleton, convertEntry, hstart, if_true, hdrop, hvTrue, hflag]
      simp only [Bool.not_true, Bool.false_eq_true, if_false, if_true, List.mem_singleton]
      apply ne_of_data_length
      simp only [strData_append, List.length_append, List.length_cons, List.length_nil]
      omega
  · intro hf
    subst hf
    simp [convert_singleton, convertEntry, hstart, hdrop, hvTrue, hflag]
  · by_cases hf : fo
    · have hvFalse : (validatePandocOption name (.scalar (.bool false))).isValid = false := by
        simp [validatePandocOption, hl, hf]
      simp [convert_singleton, convertEntry, hstart, hdrop, hvFalse]
    · have hvFalse : validatePandocOption name (.scalar (.bool false)) = ⟨true, none⟩ := by
        simp [validatePandocOption, hl, jsTypeof, hf]
      simp [convert_singleton, convertEntry, hstart, hdrop, hvFalse]

theorem claim_C1_witness :
    ((convertYamlToPandocArgs (fun _ => false) ⟨"/v/notes", "/v", ""⟩
        [("pandoc-" ++ "toc", .scalar (.bool true))]).cliArgs = ["--" ++ "toc"]
      ∧ ("--" ++ "toc" ++ "=true")
          ∉ (convertYamlToPandocArgs (fun _ => false) ⟨"/v/notes", "/v", ""⟩
              [("pandoc-" ++ "toc", .scalar (.bool true))]).cliArgs)
    ∧ (convertYamlToPandocArgs (fun _ => false) ⟨"/v/notes", "/v", ""⟩
        [("pandoc-" ++ "standalone", .scalar (.bool true))]).cliArgs
          = ["--" ++ "standalone" ++ "=true"]
    ∧ (convertYamlToPandocArgs (fun _ => false) ⟨"/v/notes", "/v", ""⟩
        [("pandoc-" ++ "standalone", .scalar (.bool false))]).cliArgs = [] :=
  ⟨(claim_C1_boolean_directive_mapping (fun _ => false) ⟨"/v/notes", "/v", ""⟩ "toc"
      ⟨.boolean, "Include table of contents", true, none, false⟩ (by decide) rfl).1 rfl,
   (claim_C1_boolean_directive_mapping (fun _ => false) ⟨"/v/notes", "/v", ""⟩ "standalone"
      ⟨.boolean, "Produce output with an appropriate header and footer", false, none, false⟩
      (by decide) rfl).2.1 rfl,
   (claim_C1_boolean_directive_mapping (fun _ => false) ⟨"/v/notes", "/v", ""⟩ "standalone"
      ⟨.boolean, "Produce output with an appropriate header and footer", false, none, false⟩
      (by decide) rfl).2.2⟩

theorem convertEntry_cleanedMetadata (fs : String → Bool) (cfg : ResolverConfig)
    (k : String) (v : YamlValue) :
    (convertEntry fs cfg k v).cleanedMetadata
      = if strStartsWith k "pandoc-" then [] else [(k, v)] := by
  by_cases hk : strStartsWith k "pandoc-"
  · simp only [convertEntry, hk, if_true]
    split
    · rfl
    · split <;> try rfl
      split <;> rfl
  · simp [convertEntry, hk]

/-- C5: the compiler's cleaned-metadata mapping contains no key carrying the
`pandoc-` directive prefix, and every header field whose key does not carry
the prefix is copied into it verbatim (same key, same value). -/
theorem claim_C5_metadata_partition (fs : String → Bool) (cfg : ResolverConfig)
    (entries : List (String × YamlValue)) :
    (∀ kv ∈ (convertYamlToPandocArgs fs cfg entries).cleanedMetadata,
        strStartsWith kv.1 "pandoc-" = false)
    ∧ (∀ kv ∈ entries, strStartsWith kv.1 "pandoc-" = false →
        kv ∈ (convertYamlToPandocArgs fs cfg entries).cleanedMetadata) := by
  have hfil : (convertYamlToPandocArgs fs cfg entries).cleanedMetadata
      = entries.filter (fun kv => !(strStartsWith kv.1 "pandoc-")) := by
    induction entries with
    | nil => rfl
    | cons p rest ih =>
      obtain ⟨k, v⟩ := p
      by_cases hk : strStartsWith k "pandoc-"
      · simp [convertYamlToPandocArgs, convertEntry_cleanedMetadata, hk, ih, List.filter_cons]
      · simp [convertYamlToPandocArgs, convertEntry_cleanedMetadata, hk, ih, List.filter_cons]
  rw [hfil]
  constructor
  · intro kv hkv
    rw [List.mem_filter] at hkv
    simpa using hkv.2
  · intro kv hkv hpre
    rw [List.mem_filter]
    exact ⟨hkv, by simp [hpre]⟩

theorem claim_C5_witness :
    (∀ kv ∈ (convertYamlToPandocArgs (fun _ => false) ⟨"/v/notes", "/v", ""⟩
        [("title", .scalar (.str "T")), ("pandoc-toc", .scalar (.bool true))]).cleanedMetadata,
      strStartsWith kv.1 "pandoc-" = false)
    ∧ ("title", YamlValue.scalar (.str "T"))
        ∈ (convertYamlToPandocArgs (fun _ => false) ⟨"/v/notes", "/v", ""⟩
            [("title", .scalar (.str "T")), ("pandoc-toc", .scalar (.bool true))]).cleanedMetadata :=
  ⟨(claim_C5_metadata_partition (fun _ => false) ⟨"/v/notes", "/v", ""⟩
      [("title", .scalar (.str "T")), ("pandoc-toc", .scalar (.bool true))]).1,
   (claim_C5_metadata_partition (fun _ => false) ⟨"/v/notes", "/v", ""⟩
      [("title", .scalar (.str "T")), ("pandoc-toc", .scalar (.bool true))]).2
      ("title", YamlValue.scalar (.str "T")) (by decide) (by decide)⟩

/-- C3: in the final argument vector, every token compiled from the global
default (extra-parameter) strings precedes every per-document directive
token: the vector decomposes as a prefix, then all parsed extra-argument
tokens, then all document arguments. -/
theorem claim_C3_defaults_precede_document_args (input : PandocInputModel)
    (output : PandocOutputModel) (ep da : List String) (lual xel : Bool)
    (hda : input.documentArgs = some da) (_hep : ep ≠ []) (_hdane : da ≠ []) :
    ∃ pre, buildPandocArgs input output (some ep) lual xel
      = pre ++ (((ep.map parseArgumentString).flatten).filter (fun x => !(x.length == 0)) ++ da) := by
  refine ⟨buildPandocArgsBase input output (some ep) lual xel, ?_⟩
  simp [buildPandocArgs, buildPandocArgsBase, hda, List.append_assoc]

theorem claim_C3_witness :
    (["--standalone"] : List String) ≠ []
    ∧ (["--toc"] : List String) ≠ []
    ∧ ∃ pre, buildPandocArgs ⟨"/v/n.md", some "markdown", none, some ["--toc"]⟩
        ⟨"/v/n.tex", some "latex"⟩ (some ["--standalone"]) false false
      = pre ++ ((((["--standalone"].map parseArgumentString).flatten).filter
          (fun x => !(x.length == 0))) ++ ["--toc"]) :=
  ⟨by decide, by decide,
   claim_C3_defaults_precede_document_args ⟨"/v/n.md", some "markdown", none, some ["--toc"]⟩
     ⟨"/v/n.tex", some "latex"⟩ ["--standalone"] ["--toc"] false false rfl
     (by decide) (by decide)⟩

/-- C2: for an enumerated-choice directive, a value outside the declared
choice set yields zero emitted tokens and exactly one surfaced diagnostic,
and the compilation of the surrounding directives is unaffected (their
tokens are exactly the concatenation of the other entries' tokens); a value
inside the set yields exactly one token and no diagnostic. -/
theorem claim_C2_choice_validation (fs : String → Bool) (cfg : ResolverConfig)
    (pre post : List (String × YamlValue)) (name : String) (schema : PandocOptionSchema)
    (cs : List String) (v : String)
    (hl : optLookup name = some schema) (ht : schema.type = .choice)
    (hc : schema.choices = some cs) :
    (v ∉ cs →
        (convertYamlToPandocArgs fs cfg [("pandoc-" ++ name, .scalar (.str v))]).cliArgs = []
        ∧ (convertYamlToPandocArgs fs cfg
            [("pandoc-" ++ name, .scalar (.str v))]).diagnostics.length = 1
        ∧ (convertYamlToPandocArgs fs cfg
            (pre ++ ("pandoc-" ++ name, YamlValue.scalar (.str v)) :: post)).cliArgs
          = (convertYamlToPandocArgs fs cfg pre).cliArgs
            ++ (convertYamlToPandocArgs fs cfg post).cliArgs)
    ∧ (v ∈ cs →
        (convertYamlToPandocArgs fs cfg [("pandoc-" ++ name, .scalar (.str v))]).cliArgs.length = 1
        ∧ (convertYamlToPandocArgs fs cfg
            [("pandoc-" ++ name, .scalar (.str v))]).diagnostics = []) := by
  obtain ⟨ty, desc, fo, ch, am⟩ := schema
  simp only at ht hc
  subst ht hc
  have hstart := strStartsWith_pandocPrefix name
  have hdrop := strDrop_pandocPrefix name
  constructor
  · intro hnot
    have hval : (validatePandocOption name (.scalar (.str v))).isValid = false := by
      simp [validatePandocOption, hl, hnot]
    have hentry : (convertEntry fs cfg ("pandoc-" ++ name) (.scalar (.str v))).cliArgs = []
        ∧ (convertEntry fs cfg ("pandoc-" ++ name) (.scalar (.str v))).diagnostics.length = 1 := by
      constructor <;> simp [convertEntry, hstart, hdrop, hval]
    refine ⟨by rw [convert_singleton]; exact hentry.1,
            by rw [convert_singleton]; exact hentry.2, ?_⟩
    rw [convertYaml_append]
    simp only [convertYamlToPandocArgs, hentry.1, List.nil_append]
  · intro hmem
    have hval : validatePandocOption name (.scalar (.str v)) = ⟨true, none⟩ := by
      simp [validatePandocOption, hl, hmem]
    constructor <;> simp [convert_singleton, convertEntry, hstart, hdrop, hval]

theorem claim_C2_witness :
    ((convertYamlToPandocArgs (fun _ => false) ⟨"/v/notes", "/v", ""⟩
        [("pandoc-" ++ "wrap", .scalar (.str "bogus"))]).cliArgs = []
      ∧ (convertYamlToPandocArgs (fun _ => false) ⟨"/v/notes", "/v", ""⟩
          [("pandoc-" ++ "wrap", .scalar (.str "bogus"))]).diagnostics.length = 1
      ∧ (convertYamlToPandocArgs (fun _ => false) ⟨"/v/notes", "/v", ""⟩
          ([("pandoc-toc", .scalar (.bool true))]
            ++ ("pandoc-" ++ "wrap", YamlValue.scalar (.str "bogus"))
              :: [("pandoc-standalone", .scalar (.bool true))])).cliArgs
        = (convertYamlToPandocArgs (fun _ => false) ⟨"/v/notes", "/v", ""⟩
            [("pandoc-toc", .scalar (.bool true))]).cliArgs
          ++ (convertYamlToPandocArgs (fun _ => false) ⟨"/v/notes", "/v", ""⟩
              [("pandoc-standalone", .scalar (.bool true))]).cliArgs)
    ∧ ((convertYamlToPandocArgs (fun _ => false) ⟨"/v/notes", "/v", ""⟩
        [("pandoc-" ++ "wrap", .scalar (.str "auto"))]).cliArgs.length = 1
      ∧ (convertYamlToPandocArgs (fun _ => false) ⟨"/v/notes", "/v", ""⟩
          [("pandoc-" ++ "wrap", .scalar (.str "auto"))]).diagnostics = []) :=
  ⟨(claim_C2_choice_validation (fun _ => false) ⟨"/v/notes", "/v", ""⟩
      [("pandoc-toc", .scalar (.bool true))] [("pandoc-standalone", .scalar (.bool true))]
      "wrap" ⟨.choice, "Determine how text is wrapped", false,
        some ["auto", "none", "preserve"], false⟩
      ["auto", "none", "preserve"] "bogus" (by decide) rfl rfl).1 (by decide),
   (claim_C2_choice_validation (fun _ => false) ⟨"/v/notes", "/v", ""⟩
      [("pandoc-toc", .scalar (.bool true))] [("pandoc-standalone", .scalar (.bool true))]
      "wrap" ⟨.choice, "Determine how text is wrapped", false,
        some ["auto", "none", "preserve"], false⟩
      ["auto", "none", "preserve"] "auto" (by decide) rfl rfl).2 (by decide)⟩

/-- C8: for every number-kind option, validation accepts numeric values and
strings that parse as numbers; every string that does not parse as a number
is invalid with a diagnostic mentioning "number", and compiling such a value
emits zero tokens for that key (and surfaces exactly one diagnostic). -/
theorem claim_C8_number_validation (fs : String → Bool) (cfg : ResolverConfig)
    (name : String) (schema : PandocOptionSchema)
    (hl : optLookup name = some schema) (ht : schema.type = .number) :
    (∀ n : Int, (validatePandocOption name (.scalar (.num n))).isValid = true)
    ∧ (∀ s : String, parseFloatIsNaN s = false →
        (validatePandocOption name (.scalar (.str s))).isValid = true)
    ∧ (∀ s : String, parseFloatIsNaN s = true →
        (validatePandocOption name (.scalar (.str s))).isValid = false
        ∧ (∃ e, (validatePandocOption name (.scalar (.str s))).error = some e
            ∧ strContainsSub e "number" = true)
        ∧ (convertYamlToPandocArgs fs cfg [("pandoc-" ++ name, .scalar (.str s))]).cliArgs = []
        ∧ (convertYamlToPandocArgs fs cfg
            [("pandoc-" ++ name, .scalar (.str s))]).diagnostics.length = 1) := by
  obtain ⟨ty, desc, fo, ch, am⟩ := schema
  simp only at ht
  subst ht
  have hstart := strStartsWith_pandocPrefix name
  have hdrop := strDrop_pandocPrefix name
  refine ⟨?_, ?_, ?_⟩
  · intro n
    simp [validatePandocOption, hl, jsIsNaNAfterCoerce]
  · intro s h
    simp [validatePandocOption, hl, jsIsNaNAfterCoerce, h]
  · intro s h
    have hval : validatePandocOption name (.scalar (.str s))
        = ⟨false, some ("Option '" ++ name ++ "' expects a number, got '" ++ s ++ "'")⟩ := by
      simp [validatePandocOption, hl, jsIsNaNAfterCoerce, h, jsStringValue, jsStringScalar]
    refine ⟨by simp [hval], ⟨"Option '" ++ name ++ "' expects a number, got '" ++ s ++ "'",
      by simp [hval], ?_⟩, ?_, ?_⟩
    · rw [strContainsSub]
      have he : ("Option '" ++ name ++ "' expects a number, got '" ++ s ++ "'").data
          = ("Option '".data ++ name.data ++ "' expects a ".data)
            ++ "number".data ++ (", got '".data ++ s.data ++ "'".data) := by
        simp [strData_append, List.append_assoc]
      rw [he]
      exact listContainsSub_of_parts _ _ _
    · simp [convert_singleton, convertEntry, hstart, hdrop, hval]
    · simp [convert_singleton, convertEntry, hstart, hdrop, hval]

theorem claim_C8_witness :
    ((validatePandocOption "toc-depth" (.scalar (.num 3))).isValid = true)
    ∧ (parseFloatIsNaN "3.5" = false
        ∧ (validatePandocOption "toc-depth" (.scalar (.str "3.5"))).isValid = true)
    ∧ (parseFloatIsNaN "not-a-number" = true
        ∧ (validatePandocOption "toc-depth" (.scalar (.str "not-a-number"))).isValid = false
        ∧ (∃ e, (validatePandocOption "toc-depth" (.scalar (.str "not-a-number"))).error = some e
            ∧ strContainsSub e "number" = true)
        ∧ (convertYamlToPandocArgs (fun _ => false) ⟨"/v/notes", "/v", ""⟩
            [("pandoc-" ++ "toc-depth", .scalar (.str "not-a-number"))]).cliArgs = []
        ∧ (convertYamlToPandocArgs (fun _ => false) ⟨"/v/notes", "/v", ""⟩
            [("pandoc-" ++ "toc-depth", .scalar (.str "not-a-number"))]).diagnostics.length = 1) :=
  ⟨(claim_C8_number_validation (fun _ => false) ⟨"/v/notes", "/v", ""⟩ "toc-depth"
      ⟨.number, "Specify the number of section levels to include in TOC", false, none, false⟩
      (by decide) rfl).1 3,
   ⟨by decide, (claim_C8_number_validation (fun _ => false) ⟨"/v/notes", "/v", ""⟩ "toc-depth"
      ⟨.number, "Specify the number of section levels to include in TOC", false, none, false⟩
      (by decide) rfl).2.1 "3.5" (by decide)⟩,
   ⟨by decide, (claim_C8_number_validation (fun _ => false) ⟨"/v/notes", "/v", ""⟩ "toc-depth"
      ⟨.number, "Specify the number of section levels to include in TOC", false, none, false⟩
      (by decide) rfl).2.2 "not-a-number" (by decide)⟩⟩

/-- C6 (code-bug evidence): the claim promises one token per array element,
but for the registered multi-valued option `css` the compiler validates the
array value itself against the scalar `file` rule, rejects it
(`typeof [..] !== 'string'`), and emits zero tokens plus a diagnostic —
although the schema itself declares `css` repeatable (`allowMultiple`). -/
theorem claim_C6_known_array_rejected :
    convertYamlToPandocArgs (fun _ => false) ⟨"/v/notes", "/v", ""⟩
        [("pandoc-css", .arr [.str "style.css"])]
      = ⟨[], [],
          ["Pandoc argument validation error: Option 'css' expects a string, got 'object'"]⟩
    ∧ (optLookup "css").map (fun s => s.allowMultiple) = some true := by
  constructor <;> decide

theorem str_eqtrue_split (a : String) : a ++ "=true" = a ++ "=" ++ "true" := by
  apply strExt
  simp [strData_append]

theorem convertArrayItems_shape (fs : String → Bool) (cfg : ResolverConfig)
    (key argName : String) (items : List Scalar) :
    ∀ t ∈ (convertArrayItems fs cfg key argName items).1,
      ∃ w, t = "--" ++ argName ++ "=" ++ w := by
  induction items with
  | nil => simp [convertArrayItems]
  | cons item rest ih =>
    intro t ht
    simp only [convertArrayItems] at ht
    split at ht
    · exact ih t ht
    · split at ht
      · exact ih t ht
      · rcases List.mem_cons.mp ht with h | h
        · exact ⟨_, h⟩
        · exact ih t h

theorem convertEntry_cliArgs_shape (fs : String → Bool) (cfg : ResolverConfig)
    (k : String) (v : YamlValue) :
    ∀ t ∈ (convertEntry fs cfg k v).cliArgs, argTokenWellFormed t := by
  intro t ht
  by_cases hk : strStartsWith k "pandoc-"
  · simp only [convertEntry, hk, if_true] at ht
    split at ht
    · simp at ht
    · split at ht
      · simp at ht
      · simp at ht
      · split at ht
        · rcases List.mem_singleton.mp ht with rfl
          exact ⟨strDrop k 7, "", Or.inl rfl⟩
        · rcases List.mem_singleton.mp ht with rfl
          exact ⟨strDrop k 7, "true", Or.inr (str_eqtrue_split _)⟩
      · obtain ⟨w, hw⟩ := convertArrayItems_shape fs cfg k (strDrop k 7) _ t ht
        exact ⟨strDrop k 7, w, Or.inr hw⟩
      · rcases List.mem_singleton.mp ht with rfl
        exact ⟨strDrop k 7, _, Or.inr rfl⟩
  · simp [convertEntry, hk] at ht

theorem lexArgsAux_plain :
    ∀ (a : List Char), (∀ c ∈ a, ¬(isJsWhitespace c = true) ∧ c ≠ '"' ∧ c ≠ '\x27') →
      ∀ (rest cur : List Char), lexArgsAux (a ++ rest) cur = lexArgsAux rest (cur ++ a) := by
  intro a
  induction a with
  | nil => intro _ rest cur; simp
  | cons c cs ih =>
    intro h rest cur
    obtain ⟨hw, hq1, hq2⟩ := h c (by simp)
    rw [List.cons_append]
    rw [lexArgsAux]
    simp only [hw, hq1, hq2, if_false, Bool.or_self, ite_false]
    rw [ih (fun x hx => h x (by simp [hx])) rest (cur ++ [c])]
    simp

theorem charIndexOf_append_self (q : Char) (v : List Char) (h : q ∉ v) :
    charIndexOf q (v ++ [q]) = some v.length := by
  induction v with
  | nil => simp [charIndexOf]
  | cons c cs ih =>
    have hne : ¬(c = q) := fun he => h (by simp [he])
    simp only [List.cons_append, charIndexOf, hne, ite_false, List.append_eq]
    rw [ih (fun hm => h (by simp [hm]))]
    simp

theorem splitOnEq_left (a b : List Char) (h : '=' ∉ a) :
    splitOnEqL (a ++ '=' :: b) = a :: splitOnEqL b := by
  induction a with
  | nil => simp [splitOnEqL]
  | cons c cs ih =>
    have hne : ¬(c = '=') := fun he => h (by simp [he])
    simp only [List.cons_append, splitOnEqL, hne, ite_false, List.append_eq]
    rw [ih (fun hm => h (by simp [hm]))]

theorem splitOnEq_ne_nil (l : List Char) : splitOnEqL l ≠ [] := by
  cases l with
  | nil => simp [splitOnEqL]
  | cons c rest =>
    simp only [splitOnEqL]
    split
    · simp
    · split
      · simp
      · simp

theorem joinEq_splitOnEq (l : List Char) : joinEqL (splitOnEqL l) = l := by
  induction l with
  | nil => rfl
  | cons c rest ih =>
    by_cases hc : c = '='
    · subst hc
      simp only [splitOnEqL, ite_true, if_pos]
      cases hps : splitOnEqL rest with
      | nil => exact absurd hps (splitOnEq_ne_nil rest)
      | cons p ps =>
        rw [hps] at ih
        simp only [joinEqL, List.nil_append]
        rw [ih]
    · simp only [splitOnEqL, hc, ite_false]
      cases hps : splitOnEqL rest with
      | nil => exact absurd hps (splitOnEq_ne_nil rest)
      | cons p ps =>
        rw [hps] at ih
        cases ps with
        | nil =>
          simp only [joinEqL] at ih ⊢
          rw [ih]
        | cons p2 ps2 =>
          simp only [joinEqL] at ih ⊢
          rw [List.cons_append, ih]

theorem stripMatchingQuotes_quoted (value : List Char) :
    stripMatchingQuotes ('"' :: (value ++ ['"'])) = value := by
  have h2 : ('"' :: (value ++ ['"'])) = ('"' :: value) ++ ['"'] := by simp
  have hlast : ('"' :: (value ++ ['"'])).getLast? = some '"' := by
    rw [h2]
    exact List.getLast?_concat _
  simp only [stripMatchingQuotes, hlast, List.head?]
  simp [List.dropLast_concat]

theorem lexArgs_quoted (name value : List Char)
    (hplain : ∀ c ∈ name ++ ['='], ¬(isJsWhitespace c = true) ∧ c ≠ '"' ∧ c ≠ '\x27')
    (hval : '"' ∉ value) :
    lexArgsAux ((name ++ ['=']) ++ ('"' :: (value ++ ['"']))) []
      = [((name ++ ['=']) ++ ('"' :: value)) ++ ['"']] := by
  rw [lexArgsAux_plain (name ++ ['=']) hplain ('"' :: (value ++ ['"'])) []]
  rw [List.nil_append]
  rw [lexArgsAux]
  rw [charIndexOf_append_self '"' value hval]
  have htake : (value ++ ['"']).take value.length = value := List.take_left _ _
  have hdrop : (value ++ ['"']).drop (value.length + 1) = [] := by
    have hlen : value.length + 1 = (value ++ ['"']).length := by simp
    rw [hlen, List.drop_length]
  have hw : isJsWhitespace '"' = false := by decide
  simp [htake, hdrop, lexArgsAux, hw]

theorem parseArg_quoted_value (name value : List Char)
    (hname : ∀ c ∈ name, ¬(isJsWhitespace c = true) ∧ c ≠ '"' ∧ c ≠ '\x27' ∧ c ≠ '=')
    (hval : '"' ∉ value) :
    parseArgumentStringL ((name ++ ['=']) ++ ('"' :: (value ++ ['"'])))
      = [name ++ ('=' :: value)] := by
  have hplain : ∀ c ∈ name ++ ['='], ¬(isJsWhitespace c = true) ∧ c ≠ '"' ∧ c ≠ '\x27' := by
    intro c hc
    rcases List.mem_append.mp hc with h | h
    · exact ⟨(hname c h).1, (hname c h).2.1, (hname c h).2.2.1⟩
    · have hce : c = '=' := by simpa using h
      subst hce
      exact ⟨by decide, by decide, by decide⟩
  rw [parseArgumentStringL, lexArgs_quoted name value hplain hval]
  simp only [List.map_cons, List.map_nil]
  congr 1
  have hEqNotIn : '=' ∉ name := fun hm => (hname '=' hm).2.2.2 rfl
  have htokeq : ((name ++ ['=']) ++ ('"' :: value)) ++ ['"']
      = name ++ ('=' :: ('"' :: (value ++ ['"']))) := by simp
  rw [htokeq]
  rw [processArgL]
  have hcont : (name ++ ('=' :: ('"' :: (value ++ ['"'])))).contains '=' = true :=
    List.elem_eq_true_of_mem (by simp)
  simp only [hcont, ite_true]
  rw [splitOnEq_left name ('"' :: (value ++ ['"'])) hEqNotIn]
  show name ++ ('=' :: stripMatchingQuotes (joinEqL (splitOnEqL ('"' :: (value ++ ['"'])))))
      = name ++ ('=' :: value)
  rw [joinEq_splitOnEq]
  rw [stripMatchingQuotes_quoted]

/-- C7 (counterexample): the extra-argument string "hello" parses to the
single token "hello", which has neither the `--name` nor the `--name=value`
shape — parsed extra-argument tokens are not constrained to that shape. -/
theorem claim_C7_counterexample :
    parseArgumentString "hello" = ["hello"] ∧ ¬argTokenWellFormed "hello" := by
  constructor
  · simp [parseArgumentString, parseArgumentStringL, lexArgsAux, isJsWhitespace, processArgL,
      charIndexOf, List.contains]
  · rintro ⟨n, w, h | h⟩
    · have hd := congrArg String.data h
      simp [strData_append] at hd
    · have hd := congrArg String.data h
      simp [strData_append] at hd

/-- C7 (amended): every argument token emitted by the frontmatter compiler
has the shape `--name` or `--name=value`; and in an extra-argument string a
quoted value (which may contain whitespace and `=`) stays part of a single
token, with the surrounding quotes removed — it is never split. -/
theorem claim_C7_amended_tokens :
    (∀ (fs : String → Bool) (cfg : ResolverConfig) (entries : List (String × YamlValue)),
      ∀ t ∈ (convertYamlToPandocArgs fs cfg entries).cliArgs, argTokenWellFormed t)
    ∧ (∀ (name value : List Char),
        (∀ c ∈ name, ¬(isJsWhitespace c = true) ∧ c ≠ '"' ∧ c ≠ '\x27' ∧ c ≠ '=') →
        '"' ∉ value →
        parseArgumentStringL ((name ++ ['=']) ++ ('"' :: (value ++ ['"'])))
          = [name ++ ('=' :: value)]) := by
  constructor
  · intro fs cfg entries
    induction entries with
    | nil => simp [convertYamlToPandocArgs]
    | cons p rest ih =>
      obtain ⟨k, v⟩ := p
      intro t ht
      simp only [convertYamlToPandocArgs, List.mem_append] at ht
      rcases ht with h | h
      · exact convertEntry_cliArgs_shape fs cfg k v t h
      · exact ih t h
  · exact parseArg_quoted_value

theorem claim_C7_amended_witness :
    (∀ t ∈ (convertYamlToPandocArgs (fun _ => false) ⟨"/v/notes", "/v", ""⟩
        [("pandoc-toc", .scalar (.bool true)), ("pandoc-wrap", .scalar (.str "auto"))]).cliArgs,
      argTokenWellFormed t)
    ∧ parseArgumentStringL (("--css".data ++ ['=']) ++ ('"' :: ("my file.css".data ++ ['"'])))
        = ["--css".data ++ ('=' :: "my file.css".data)] :=
  ⟨claim_C7_amended_tokens.1 (fun _ => false) ⟨"/v/notes", "/v", ""⟩
      [("pandoc-toc", .scalar (.bool true)), ("pandoc-wrap", .scalar (.str "auto"))],
   claim_C7_amended_tokens.2 "--css".data "my file.css".data (by decide) (by decide)⟩
